import Mathlib

/-!
Shallow embedding of the two WDFW deer-harvest scraping scripts
(`scrape_deer_harvest_all_years.py`, method-level mode, and
`scrape_deer_harvest.py`, single-period summary mode).

A parsed HTML document is modelled as the ordered list of the nodes that
`soup.find_all(['h2','h3','h4','table'])` yields: headings carry their
`get_text(strip=True)` text (we keep the raw text and apply the strip
explicitly), tables carry the text of their first `<caption>` descendant
(if any) and their rows as lists of cell texts.

Python string operations are modelled on their ASCII fragment: `str.strip`
and the regex class `\s` use the six ASCII whitespace characters,
`str.lower` lowers A–Z, the regex class `\d` is 0–9, and `int()` accepts an
optional sign followed by ASCII digits (the model omits Python's
digit-group underscores and non-ASCII digits, which never occur in the
scraped tables).
-/

namespace Hunting

/-- ASCII whitespace, as recognised by Python `str.strip` and the regex `\s`. -/
def pyIsSpace (c : Char) : Bool :=
  c = ' ' || c = '\t' || c = '\n' || c = '\r' || c = Char.ofNat 11 || c = Char.ofNat 12

/-- ASCII lower-casing of one character (`str.lower`). -/
def pyLowerChar (c : Char) : Char :=
  if 'A' ≤ c ∧ c ≤ 'Z' then Char.ofNat (c.toNat + 32) else c

/-- Drop leading and trailing whitespace from a character list. -/
def stripChars (l : List Char) : List Char :=
  ((l.dropWhile pyIsSpace).reverse.dropWhile pyIsSpace).reverse

/-- Python `str.strip()`. -/
def pyStrip (s : String) : String := String.mk (stripChars s.toList)

/-- Python `str.lower()`. -/
def pyLowerStr (s : String) : String := String.mk (s.toList.map pyLowerChar)

/-- The regex class `\d` (ASCII digits). -/
def isDig (c : Char) : Bool := '0' ≤ c && c ≤ '9'

/-- `needle` occurs at the start of `hay`. -/
def listStartsWith : List Char → List Char → Bool
  | [], _ => true
  | _ :: _, [] => false
  | a :: as, b :: bs => a = b && listStartsWith as bs

/-- `needle` occurs somewhere inside `hay` (Python's `needle in hay`). -/
def isSubList (needle : List Char) : List Char → Bool
  | [] => needle.isEmpty
  | c :: t => listStartsWith needle (c :: t) || isSubList needle t

/-- Python's substring test `needle in hay` on strings. -/
def containsSub (needle hay : String) : Bool := isSubList needle.toList hay.toList

/-- Digit run to the natural number it denotes. -/
def digitsToNat (l : List Char) : Nat :=
  l.foldl (fun n c => n * 10 + (c.toNat - 48)) 0

/-- Python `int(s)` on its ASCII fragment: surrounding whitespace, an optional
sign, then a nonempty digit run; `none` models `ValueError`. -/
def pyInt (l : List Char) : Option Int :=
  let l := stripChars l
  match l with
  | '+' :: rest => if rest ≠ [] ∧ rest.all isDig then some (digitsToNat rest) else none
  | '-' :: rest => if rest ≠ [] ∧ rest.all isDig then some (-(digitsToNat rest : Int)) else none
  | _ => if l ≠ [] ∧ l.all isDig then some (digitsToNat l) else none

/-- `parse_int` (both scripts): strip, drop all commas, map `n/a` and the
empty string to 0, and fall back to 0 when `int()` fails. -/
def parse_int (val : String) : Int :=
  let v := (stripChars val.toList).filter (fun c => c ≠ ',')
  if String.mk (v.map pyLowerChar) = "n/a" ∨ v = [] then 0
  else (pyInt v).getD 0

/-- `clean_value` (both scripts): strip, and map a case-insensitive `n/a`
to the empty string. -/
def clean_value (val : String) : String :=
  let v := pyStrip val
  if pyLowerStr v = "n/a" then "" else v

/-- `normalize_method` (`scrape_deer_harvest_all_years.py`): canonicalise
`Modern Firearms` (the comparison is on the lower-cased text) to
`Modern Firearm`; every other label passes through. -/
def normalize_method (method : String) : String :=
  if pyLowerStr method = "modern firearms" then "Modern Firearm" else method

/-- The run of characters the regex `.` can cross (everything but newline). -/
def takeNonNl (l : List Char) : List Char := l.takeWhile (fun c => c ≠ '\n')

/-- The regex fragment `(.+)` at the end of a pattern: at least one
non-newline character, captured greedily. -/
def dotPlus : List Char → Option (List Char)
  | [] => none
  | c :: t => if c = '\n' then none else some (c :: takeNonNl t)

/-- The regex fragment `\s*(.+)` at the end of a pattern, with the greedy
`\s*` backtracking one character at a time when `(.+)` has nothing left. -/
def wsStarDotPlus : List Char → Option (List Char)
  | [] => none
  | c :: t =>
    if pyIsSpace c then
      match wsStarDotPlus t with
      | some r => some r
      | none => dotPlus (c :: t)
    else dotPlus (c :: t)

/-- `re.match(r'(\d{3})\s*[-–]\s*(.+)', s)`, returning
(group 1, group 2 `.strip()`-ed) — the unit (GMU) label pattern. Both
scripts strip group 2 immediately, so the strip is baked in here. -/
def gmuParse (s : String) : Option (String × String) :=
  match s.toList with
  | d1 :: d2 :: d3 :: rest =>
    if isDig d1 && isDig d2 && isDig d3 then
      match rest.dropWhile pyIsSpace with
      | c :: rest2 =>
        if c = '-' || c = '–' then
          match wsStarDotPlus rest2 with
          | some g2 => some (String.mk [d1, d2, d3], pyStrip (String.mk g2))
          | none => none
        else none
      | [] => none
    else none
  | _ => none

/-- The pattern word `District`, lower-cased. -/
def districtWord : List Char := ['d', 'i', 's', 't', 'r', 'i', 'c', 't']

/-- Case-insensitive literal match of `pat` at the head of the input,
returning the remainder. -/
def matchCI : List Char → List Char → Option (List Char)
  | [], rest => some rest
  | _ :: _, [] => none
  | p :: ps, c :: cs => if pyLowerChar c = p then matchCI ps cs else none

/-- One attempt of `District\s*(\d+)` (IGNORECASE) anchored at the head. -/
def districtAt (l : List Char) : Option (List Char) :=
  match matchCI districtWord l with
  | none => none
  | some rest =>
    let digs := (rest.dropWhile pyIsSpace).takeWhile isDig
    if digs = [] then none else some digs

/-- `re.search(r'District\s*(\d+)', s, re.IGNORECASE)`: the leftmost match,
returning group 1. -/
def districtSearch : List Char → Option (List Char)
  | [] => none
  | c :: t =>
    match districtAt (c :: t) with
    | some d => some d
    | none => districtSearch t

/-- District search on strings. -/
def districtSearchStr (s : String) : Option String :=
  (districtSearch s.toList).map String.mk

/-! ## Document model and context walk -/

/-- A node from `soup.find_all(['h2','h3','h4','table'])`, in document order.
A table carries the text of its first `caption` descendant, if any, and its
rows as lists of raw cell texts (one per `td`/`th`). -/
inductive Element where
  | h2 (text : String)
  | h3 (text : String)
  | h4 (text : String)
  | table (caption : Option String) (rows : List (List String))
deriving DecidableEq

/-- The context-walk state of `scrape_year`: `current_district`,
`current_gmu`, `current_gmu_name`. `none` models Python `None`. -/
structure WalkState where
  district : Option String
  gmu : Option String
  gmuName : Option String
deriving DecidableEq

/-- The initial walk state (all three variables start as `None`). -/
def initState : WalkState := ⟨none, none, none⟩

/-- One step of the context walk of `scrape_year`: an `h2` matching the
district pattern sets the district and clears the unit; an `h3`/`h4`
matching the unit pattern sets the unit; everything else leaves the state
unchanged. -/
def stepElem (st : WalkState) : Element → WalkState
  | Element.h2 t =>
    match districtSearchStr (pyStrip t) with
    | some d => ⟨some d, none, none⟩
    | none => st
  | Element.h3 t =>
    match gmuParse (pyStrip t) with
    | some (n, name) => { st with gmu := some n, gmuName := some name }
    | none => st
  | Element.h4 t =>
    match gmuParse (pyStrip t) with
    | some (n, name) => { st with gmu := some n, gmuName := some name }
    | none => st
  | Element.table _ _ => st

/-- Walk a list of elements from a given state. -/
def walkList (st : WalkState) (es : List Element) : WalkState :=
  es.foldl stepElem st

/-- The `gmu_map` entry `scrape_year` records for a table: a matching caption
gives the caption's parsed pair; a table with a caption that does not match
gets no entry (the `elif` skips the heading fallback); a captionless table
falls back to the heading-derived unit when one is set
(`current_gmu_name or ''`). -/
def tableGmu (st : WalkState) (cap : Option String) : Option (String × String) :=
  match cap with
  | some c => gmuParse (pyStrip c)
  | none =>
    match st.gmu with
    | some n => some (n, st.gmuName.getD "")
    | none => none

/-! ## Method-level mode (`scrape_deer_harvest_all_years.py`) -/

/-- One output record of the method-level pipeline (17 fields). -/
structure HarvestRecord where
  year : Int
  district : String
  gmu_number : String
  gmu_name : String
  method : String
  antlerless_harvest : String
  antlered_harvest : String
  total_harvest : String
  points_1 : String
  points_2 : String
  points_3 : String
  points_4 : String
  points_5_plus : String
  num_hunters : String
  hunter_success_rate : String
  hunter_days : String
  days_per_kill : String
deriving DecidableEq

/-- The stripped cell texts of a row
(`[c.get_text(strip=True) for c in cells]`). -/
def cellTexts (cells : List String) : List String := cells.map pyStrip

/-- The raw first cell text of a row after stripping (`cell_texts[0]`). -/
def rowMethodRaw (cells : List String) : String := (cellTexts cells).getD 0 ""

/-- The lower-cased first cell text, on which both scripts classify rows. -/
def rowMethod (cells : List String) : String := pyLowerStr (rowMethodRaw cells)

/-- One row of the method-level `parse_gmu_table`: rows with fewer than 13
cells, the header row (first cell lower-cases to exactly `method`) and the
totals row (exactly `totals`) yield nothing; every other row yields one
record with the method normalized and the 12 value cells cleaned. -/
def methodRowRecord (year : Int) (district gmu_number gmu_name : String)
    (cells : List String) : Option HarvestRecord :=
  if cells.length < 13 then none
  else
    let ct := cellTexts cells
    if rowMethod cells = "method" then none
    else if rowMethod cells = "totals" then none
    else some
      { year := year
        district := district
        gmu_number := gmu_number
        gmu_name := gmu_name
        method := normalize_method (rowMethodRaw cells)
        antlerless_harvest := clean_value (ct.getD 1 "")
        antlered_harvest := clean_value (ct.getD 2 "")
        total_harvest := clean_value (ct.getD 3 "")
        points_1 := clean_value (ct.getD 4 "")
        points_2 := clean_value (ct.getD 5 "")
        points_3 := clean_value (ct.getD 6 "")
        points_4 := clean_value (ct.getD 7 "")
        points_5_plus := clean_value (ct.getD 8 "")
        num_hunters := clean_value (ct.getD 9 "")
        hunter_success_rate := clean_value (ct.getD 10 "")
        hunter_days := clean_value (ct.getD 11 "")
        days_per_kill := clean_value (ct.getD 12 "") }

/-- `parse_gmu_table` of the method-level script: one record per method row. -/
def parse_gmu_table_all (year : Int) (district gmu_number gmu_name : String)
    (rows : List (List String)) : List HarvestRecord :=
  rows.filterMap (methodRowRecord year district gmu_number gmu_name)

/-- The records one element contributes in `scrape_year`: a table with a
`gmu_map` entry is parsed with its `district_map` value (`district or ''`);
every other element, and every table without an entry, contributes none. -/
def tableRecords (year : Int) (st : WalkState) : Element → List HarvestRecord
  | Element.table cap rows =>
    match tableGmu st cap with
    | some (n, name) => parse_gmu_table_all year (st.district.getD "") n name rows
    | none => []
  | _ => []

/-- The fused walk of `scrape_year`: the two passes of the source (build
`district_map`/`gmu_map` in document order, then parse mapped tables in the
same order) visit tables in the same order with the same per-table state,
so they fuse into one pass. -/
def scrapeYearAux (year : Int) (st : WalkState) : List Element → List HarvestRecord
  | [] => []
  | e :: rest => tableRecords year st e ++ scrapeYearAux year (stepElem st e) rest

/-- `scrape_year` on an already-parsed document. -/
def scrape_year (year : Int) (doc : List Element) : List HarvestRecord :=
  scrapeYearAux year initState doc

/-! ## Single-period summary mode (`scrape_deer_harvest.py`) -/

/-- The archery sub-record captured during the summary row scan. -/
structure ArcheryData where
  harvest : String
  hunters : String
  success_rate : String
  days_per_kill : String
deriving DecidableEq

/-- The summary row-scan accumulator: `archery_data`, `total_harvest`,
`total_hunters`, `total_hunter_days`. -/
structure SumAcc where
  archery : Option ArcheryData
  total_harvest : Int
  total_hunters : Int
  total_hunter_days : Int
deriving DecidableEq

/-- The accumulator at the start of each table's row scan. -/
def initAcc : SumAcc := ⟨none, 0, 0, 0⟩

/-- One row of the summary `parse_gmu_table`: rows with fewer than 13 cells
are skipped; a first cell containing `method` is skipped; one containing
`archery` (re)captures the archery sub-record; one containing `total`
overwrites `total_harvest` from column 3; every other row accumulates
columns 9 and 11 into the hunter totals. -/
def processRow (acc : SumAcc) (cells : List String) : SumAcc :=
  if cells.length < 13 then acc
  else
    let ct := cellTexts cells
    if containsSub "method" (rowMethod cells) then acc
    else
      let arch : ArcheryData :=
        { harvest := clean_value (ct.getD 3 "")
          hunters := clean_value (ct.getD 9 "")
          success_rate := clean_value (ct.getD 10 "")
          days_per_kill := clean_value (ct.getD 12 "") }
      let acc1 :=
        if containsSub "archery" (rowMethod cells) then { acc with archery := some arch }
        else acc
      if containsSub "total" (rowMethod cells) then
        { acc1 with total_harvest := parse_int (ct.getD 3 "") }
      else
        { acc1 with
          total_hunters := acc1.total_hunters + parse_int (ct.getD 9 "")
          total_hunter_days := acc1.total_hunter_days + parse_int (ct.getD 11 "") }

/-- For `0 < b`, the rational `a / b` rounded to the nearest integer with
ties to even — the behaviour of both Python `round(a / b)` and
`f"{(a / b):.0f}"` on the value (the model uses the exact rational where
the source divides IEEE doubles; both are exact on the magnitudes these
tables hold). -/
def pyRoundDiv (a b : Int) : Int :=
  let f := a.fdiv b
  let r := a - f * b
  if 2 * r < b then f
  else if b < 2 * r then f + 1
  else if f % 2 = 0 then f else f + 1

/-- The derived-statistics block of the summary `parse_gmu_table`
(lines 111–117): the pair (`overall_success_rate`,
`overall_days_per_kill`). `total_harvest / total_hunters * 100` is the
rational `(100 * total_harvest) / total_hunters`; the inner
`if total_harvest > 0` of the source is kept although it is subsumed by
the outer guard. -/
def overallStats (total_harvest total_hunters total_hunter_days : Int) : String × String :=
  if total_harvest > 0 ∧ total_hunters > 0 then
    (toString (pyRoundDiv (100 * total_harvest) total_hunters) ++ "%",
     if total_harvest > 0 then
       toString (pyRoundDiv total_hunter_days total_harvest)
     else "")
  else ("", "")

/-- One output record of the summary pipeline (11 fields). -/
structure SummaryRecord where
  district : String
  gmu_number : String
  gmu_name : String
  archery_hunters : String
  archery_harvest : String
  archery_success_rate : String
  archery_hunter_days_per_kill : String
  total_hunters : String
  total_harvest : String
  overall_success_rate : String
  overall_hunter_days_per_kill : String
deriving DecidableEq

/-- `parse_gmu_table` of the summary script: scan the rows, derive the
overall statistics, and build the record (always returned — the source's
`if gmu_data:` guard is vacuous because the dict is never empty). -/
def parse_gmu_table_sum (rows : List (List String))
    (district gmu_number gmu_name : String) : SummaryRecord :=
  let acc := rows.foldl processRow initAcc
  let stats := overallStats acc.total_harvest acc.total_hunters acc.total_hunter_days
  { district := district
    gmu_number := gmu_number
    gmu_name := gmu_name
    archery_hunters := (acc.archery.map ArcheryData.hunters).getD ""
    archery_harvest := (acc.archery.map ArcheryData.harvest).getD ""
    archery_success_rate := (acc.archery.map ArcheryData.success_rate).getD ""
    archery_hunter_days_per_kill := (acc.archery.map ArcheryData.days_per_kill).getD ""
    total_hunters := if acc.total_hunters > 0 then toString acc.total_hunters else ""
    total_harvest := if acc.total_harvest > 0 then toString acc.total_harvest else ""
    overall_success_rate := stats.1
    overall_hunter_days_per_kill := stats.2 }

/-- The records one table contributes in `scrape_deer_harvest`: a table
without a caption, or whose caption fails the unit pattern, is skipped;
otherwise exactly one record is produced. -/
def summaryTableRecords (district : Option String) (cap : Option String)
    (rows : List (List String)) : List SummaryRecord :=
  match cap with
  | none => []
  | some c =>
    match gmuParse (pyStrip c) with
    | none => []
    | some (n, name) => [parse_gmu_table_sum rows (district.getD "") n name]

/-- The district update of the summary walk (its `h2` handler). -/
def stepDistrict (d : Option String) (t : String) : Option String :=
  match districtSearchStr (pyStrip t) with
  | some x => some x
  | none => d

/-- The fused walk of `scrape_deer_harvest` over
`soup.find_all(['h2','table'])` (so `h3`/`h4` nodes are invisible to it). -/
def scrapeSumAux (d : Option String) : List Element → List SummaryRecord
  | [] => []
  | Element.h2 t :: rest => scrapeSumAux (stepDistrict d t) rest
  | Element.h3 _ :: rest => scrapeSumAux d rest
  | Element.h4 _ :: rest => scrapeSumAux d rest
  | Element.table cap rows :: rest => summaryTableRecords d cap rows ++ scrapeSumAux d rest

/-- `scrape_deer_harvest` on an already-parsed document. -/
def scrape_deer_harvest (doc : List Element) : List SummaryRecord :=
  scrapeSumAux none doc

/-- An element that cannot establish a heading-derived unit: any element
other than an `h3`/`h4` whose text matches the unit pattern. -/
def keepsUnitClear : Element → Bool
  | Element.h3 t => (gmuParse (pyStrip t)).isNone
  | Element.h4 t => (gmuParse (pyStrip t)).isNone
  | _ => true

/-! ## Helper lemmas -/

/-- Unfolding one step of the walk. -/
theorem walkList_cons (st : WalkState) (e : Element) (es : List Element) :
    walkList st (e :: es) = walkList (stepElem st e) es := rfl

/-- A step by an element that cannot establish a unit keeps `gmu` clear. -/
theorem stepElem_gmu_none (st : WalkState) (e : Element)
    (h0 : st.gmu = none) (h : keepsUnitClear e = true) : (stepElem st e).gmu = none := by
  cases e with
  | h2 t =>
    simp only [stepElem]
    cases hm : districtSearchStr (pyStrip t) <;> simp [h0]
  | h3 t =>
    simp only [stepElem]
    simp only [keepsUnitClear, Option.isNone_iff_eq_none] at h
    simp [h, h0]
  | h4 t =>
    simp only [stepElem]
    simp only [keepsUnitClear, Option.isNone_iff_eq_none] at h
    simp [h, h0]
  | table cap rows => exact h0

/-- A walk through elements that cannot establish a unit keeps `gmu` clear. -/
theorem walkList_gmu_none (es : List Element) (st : WalkState)
    (h0 : st.gmu = none) (h : ∀ e ∈ es, keepsUnitClear e = true) :
    (walkList st es).gmu = none := by
  induction es generalizing st with
  | nil => exact h0
  | cons e es ih =>
    rw [walkList_cons]
    exact ih _ (stepElem_gmu_none st e h0 (h e (by simp)))
      (fun x hx => h x (by simp [hx]))

/-- `scrapeYearAux` splits over list appends, threading the walk state. -/
theorem scrapeYearAux_append (year : Int) (l1 l2 : List Element) (st : WalkState) :
    scrapeYearAux year st (l1 ++ l2)
      = scrapeYearAux year st l1 ++ scrapeYearAux year (walkList st l1) l2 := by
  induction l1 generalizing st with
  | nil => simp [scrapeYearAux, walkList]
  | cons e es ih => simp [scrapeYearAux, walkList_cons, ih]

/-- A row scan over rows that are all shorter than 13 cells is a no-op. -/
theorem foldl_processRow_short (rows : List (List String)) (acc : SumAcc)
    (h : ∀ r ∈ rows, r.length < 13) : rows.foldl processRow acc = acc := by
  induction rows generalizing acc with
  | nil => rfl
  | cons r rs ih =>
    have hr : processRow acc r = acc := by
      unfold processRow
      rw [if_pos (h r (by simp))]
    rw [List.foldl_cons, hr]
    exact ih _ (fun x hx => h x (by simp [hx]))

/-! ## Claims -/

/-- Claim C1: for every table node with a caption whose text matches the unit
pattern, the resolved (unit id, unit name) is the pair parsed from that
caption, whatever heading-derived unit the walk state currently holds, and
the table's records are parsed under that pair. -/
theorem C1_caption_wins (year : Int) (st : WalkState) (cap : String)
    (rows : List (List String)) (n name : String)
    (h : gmuParse (pyStrip cap) = some (n, name)) :
    tableGmu st (some cap) = some (n, name)
    ∧ tableRecords year st (Element.table (some cap) rows)
      = parse_gmu_table_all year (st.district.getD "") n name rows := by
  constructor
  · simp [tableGmu, h]
  · simp [tableRecords, tableGmu, h]

/-- Witness for C1 at a state whose heading-derived unit disagrees with the
caption: the caption's pair wins. -/
theorem C1_caption_wins_witness :
    tableGmu ⟨some "9", some "999", some "STALE"⟩ (some "101 - SHERMAN") = some ("101", "SHERMAN")
    ∧ tableRecords 2024 ⟨some "9", some "999", some "STALE"⟩
        (Element.table (some "101 - SHERMAN") [])
      = parse_gmu_table_all 2024 "9" "101" "SHERMAN" [] :=
  C1_caption_wins 2024 ⟨some "9", some "999", some "STALE"⟩ "101 - SHERMAN" [] "101" "SHERMAN"
    (by decide)

/-- Claim C2: a district heading matching `District <integer>` clears the
heading-derived unit, so a captionless (or non-matching-captioned) table
that follows it with no new unit sub-heading in between resolves to no unit
and contributes zero records to `scrape_year`'s output. -/
theorem C2_district_clears_unit (year : Int) (st : WalkState) (dh d : String)
    (mid : List Element) (cap : Option String) (rows : List (List String))
    (rest : List Element)
    (hd : districtSearchStr (pyStrip dh) = some d)
    (hmid : ∀ e ∈ mid, keepsUnitClear e = true)
    (hcap : ∀ c, cap = some c → gmuParse (pyStrip c) = none) :
    tableGmu (walkList st (Element.h2 dh :: mid)) cap = none
    ∧ scrapeYearAux year st (Element.h2 dh :: (mid ++ Element.table cap rows :: rest))
      = scrapeYearAux year st (Element.h2 dh :: (mid ++ rest)) := by
  have hstep : stepElem st (Element.h2 dh) = ⟨some d, none, none⟩ := by
    simp [stepElem, hd]
  have hgmu : (walkList st (Element.h2 dh :: mid)).gmu = none := by
    rw [walkList_cons, hstep]
    exact walkList_gmu_none mid _ rfl hmid
  have htab : tableGmu (walkList st (Element.h2 dh :: mid)) cap = none := by
    cases cap with
    | none => simp [tableGmu, hgmu]
    | some c => simp [tableGmu, hcap c rfl]
  refine ⟨htab, ?_⟩
  have hrec : tableRecords year (walkList st (Element.h2 dh :: mid))
      (Element.table cap rows) = [] := by
    simp [tableRecords, htab]
  have hstay : stepElem (walkList st (Element.h2 dh :: mid)) (Element.table cap rows)
      = walkList st (Element.h2 dh :: mid) := rfl
  show tableRecords year st (Element.h2 dh)
      ++ scrapeYearAux year (stepElem st (Element.h2 dh)) (mid ++ Element.table cap rows :: rest)
    = tableRecords year st (Element.h2 dh)
      ++ scrapeYearAux year (stepElem st (Element.h2 dh)) (mid ++ rest)
  rw [scrapeYearAux_append, scrapeYearAux_append]
  have : walkList (stepElem st (Element.h2 dh)) mid = walkList st (Element.h2 dh :: mid) := rfl
  rw [this]
  show _ ++ (_ ++ (tableRecords year (walkList st (Element.h2 dh :: mid))
        (Element.table cap rows)
      ++ scrapeYearAux year (stepElem (walkList st (Element.h2 dh :: mid))
        (Element.table cap rows)) rest)) = _
  rw [hrec, hstay]
  simp

/-- Witness for C2: a table right after `District 4`, with a heading-derived
unit previously in effect, yields no records. -/
theorem C2_district_clears_unit_witness :
    tableGmu (walkList ⟨some "9", some "105", some "EAST"⟩ [Element.h2 "District 4"]) none = none
    ∧ scrapeYearAux 2016 ⟨some "9", some "105", some "EAST"⟩
        [Element.h2 "District 4",
         Element.table none [["Archery", "1", "2", "3", "4", "5", "6", "7", "8", "9", "10", "11", "12"]]]
      = scrapeYearAux 2016 ⟨some "9", some "105", some "EAST"⟩ [Element.h2 "District 4"] :=
  C2_district_clears_unit 2016 ⟨some "9", some "105", some "EAST"⟩ "District 4" "4" [] none
    [["Archery", "1", "2", "3", "4", "5", "6", "7", "8", "9", "10", "11", "12"]] []
    (by decide) (by simp) (fun c h => nomatch h)

/-- Claim C3 counterexample: the summary row scan classifies by the
substring `total`, not by equality with `totals`: a 13-cell row whose first
cell is `Total` is treated as the totals row (it seeds `total_harvest` with
50 and is excluded from the hunters accumulation), although the claim, which
requires the first cell to equal `totals`, predicts the opposite. -/
theorem C3_counterexample :
    ¬ (pyLowerStr (pyStrip "Total") ≠ "totals" →
       (processRow initAcc
          ["Total", "1", "2", "50", "0", "0", "0", "0", "0", "200", "25%", "1000", "20"]).total_harvest = 0
       ∧ (processRow initAcc
          ["Total", "1", "2", "50", "0", "0", "0", "0", "0", "200", "25%", "1000", "20"]).total_hunters = 200) := by
  decide

/-- Claim C3 as amended: in single-period summary mode a 13-cell row whose
first cell does not contain `method` is treated as the totals row if and
only if its lower-cased, trimmed first cell contains the substring `total`;
exactly those rows seed `total_harvest` from column 3, and exactly those
rows are excluded from the hunters / hunter-days accumulation. -/
theorem C3_totals_substring (acc : SumAcc) (cells : List String)
    (h13 : ¬ cells.length < 13)
    (hm : containsSub "method" (rowMethod cells) = false) :
    (containsSub "total" (rowMethod cells) = true →
       (processRow acc cells).total_harvest = parse_int ((cellTexts cells).getD 3 "")
       ∧ (processRow acc cells).total_hunters = acc.total_hunters
       ∧ (processRow acc cells).total_hunter_days = acc.total_hunter_days)
    ∧ (containsSub "total" (rowMethod cells) = false →
       (processRow acc cells).total_harvest = acc.total_harvest
       ∧ (processRow acc cells).total_hunters
           = acc.total_hunters + parse_int ((cellTexts cells).getD 9 "")
       ∧ (processRow acc cells).total_hunter_days
           = acc.total_hunter_days + parse_int ((cellTexts cells).getD 11 "")) := by
  unfold processRow
  simp only [h13, if_false, hm, Bool.false_eq_true]
  by_cases ha : containsSub "archery" (rowMethod cells)
    <;> by_cases ht : containsSub "total" (rowMethod cells)
    <;> simp [ha, ht]

/-- Witness for the amended C3 at a genuine `Totals` row. -/
theorem C3_totals_substring_witness :
    (processRow ⟨none, 7, 8, 9⟩
       ["Totals", "1", "2", "50", "0", "0", "0", "0", "0", "200", "25%", "1000", "20"]).total_harvest
      = parse_int ((cellTexts
          ["Totals", "1", "2", "50", "0", "0", "0", "0", "0", "200", "25%", "1000", "20"]).getD 3 "")
    ∧ (processRow ⟨none, 7, 8, 9⟩
       ["Totals", "1", "2", "50", "0", "0", "0", "0", "0", "200", "25%", "1000", "20"]).total_hunters = 8
    ∧ (processRow ⟨none, 7, 8, 9⟩
       ["Totals", "1", "2", "50", "0", "0", "0", "0", "0", "200", "25%", "1000", "20"]).total_hunter_days = 9 :=
  (C3_totals_substring ⟨none, 7, 8, 9⟩
      ["Totals", "1", "2", "50", "0", "0", "0", "0", "0", "200", "25%", "1000", "20"]
      (by decide) (by decide)).1 (by decide)

/-- Claim C4 counterexample: in method-level mode the header check is an
exact match, not a substring test: a 13-cell row whose first cell is
`Harvest Method` contains `method` but is emitted as a record, although the
claim predicts it is discarded in both modes. -/
theorem C4_counterexample :
    containsSub "method" (rowMethod
        ["Harvest Method", "1", "2", "3", "4", "5", "6", "7", "8", "9", "10", "11", "12"]) = true
    ∧ ¬ (parse_gmu_table_all 2020 "1" "101" "SHERMAN"
        [["Harvest Method", "1", "2", "3", "4", "5", "6", "7", "8", "9", "10", "11", "12"]] = []) := by
  decide

/-- Claim C4 as amended: in summary mode a 13-cell row whose first cell
contains `method` is discarded unconditionally (the accumulator is
untouched), while in method-level mode a 13-cell row is discarded if and
only if its lower-cased, trimmed first cell equals exactly `method` or
exactly `totals`. -/
theorem C4_header_discard :
    (∀ (acc : SumAcc) (cells : List String), ¬ cells.length < 13 →
       containsSub "method" (rowMethod cells) = true → processRow acc cells = acc)
    ∧ ∀ (year : Int) (d n nm : String) (cells : List String), ¬ cells.length < 13 →
       (methodRowRecord year d n nm cells = none
         ↔ (rowMethod cells = "method" ∨ rowMethod cells = "totals")) := by
  constructor
  · intro acc cells h13 hm
    unfold processRow
    simp [h13, hm]
  · intro year d n nm cells h13
    unfold methodRowRecord
    simp only [h13, if_false]
    by_cases h1 : rowMethod cells = "method"
      <;> by_cases h2 : rowMethod cells = "totals"
      <;> simp [h1, h2]

/-- Witness for the amended C4: the header row is dropped by the summary
scan. -/
theorem C4_header_discard_witness :
    processRow ⟨none, 1, 2, 3⟩
        ["Harvest Method", "1", "2", "3", "4", "5", "6", "7", "8", "9", "10", "11", "12"]
      = ⟨none, 1, 2, 3⟩ :=
  C4_header_discard.1 ⟨none, 1, 2, 3⟩
    ["Harvest Method", "1", "2", "3", "4", "5", "6", "7", "8", "9", "10", "11", "12"]
    (by decide) (by decide)

/-- Claim C5 counterexample: `normalize_method` compares the lower-cased
label, so `MODERN FIREARMS`, which differs in case from the literal
`Modern Firearms`, does not pass through unchanged as the claim predicts. -/
theorem C5_counterexample :
    ¬ (normalize_method "MODERN FIREARMS" = "MODERN FIREARMS") := by decide

/-- Claim C5 as amended: method normalization rewrites exactly the labels
whose lower-cased text is `modern firearms` (case-insensitively, not only
the literal plural) to `Modern Firearm`, and leaves every other label
unchanged. -/
theorem C5_method_normalization :
    normalize_method "Modern Firearms" = "Modern Firearm"
    ∧ normalize_method "MODERN FIREARMS" = "Modern Firearm"
    ∧ normalize_method "Archery" = "Archery"
    ∧ ∀ m : String, pyLowerStr m ≠ "modern firearms" → normalize_method m = m := by
  refine ⟨by decide, by decide, by decide, ?_⟩
  intro m hm
  unfold normalize_method
  simp [hm]

/-- Witness for the amended C5 on a label that is not the plural form. -/
theorem C5_method_normalization_witness :
    normalize_method "Muzzleloader" = "Muzzleloader" :=
  C5_method_normalization.2.2.2 "Muzzleloader" (by decide)

/-- Claim C6: when the accumulated totals are positive, the derived fields
are the rounded percentage `total_harvest / total_hunters * 100` and the
rounded `total_hunter_days / total_harvest` (Python `round`: nearest, ties
to even — `pyRoundDiv` over the exact rational); when either total is not
positive, both fields are empty and no division is reached; the spec's
example (50, 200, 1000) gives `25%` and `20`. -/
theorem C6_overall_stats (th tH tD : Int) :
    (th > 0 ∧ tH > 0 →
      overallStats th tH tD
        = (toString (pyRoundDiv (100 * th) tH) ++ "%", toString (pyRoundDiv tD th)))
    ∧ (¬ (th > 0 ∧ tH > 0) → overallStats th tH tD = ("", ""))
    ∧ overallStats 50 200 1000 = ("25%", "20") := by
  refine ⟨?_, ?_, by decide⟩
  · intro h
    unfold overallStats
    rw [if_pos h, if_pos h.1]
  · intro h
    unfold overallStats
    rw [if_neg h]

/-- Witness for C6 at the spec's example figures. -/
theorem C6_overall_stats_witness :
    overallStats 50 200 1000
      = (toString (pyRoundDiv (100 * 50) 200) ++ "%", toString (pyRoundDiv 1000 50)) :=
  (C6_overall_stats 50 200 1000).1 (by decide)

/-- Claim C7: `parse_int` is total — it returns an integer for every string
by its very type, the `try`/`except` of the source being modelled by the
`Option.getD 0` fallback — and behaves as specified on the spec's examples:
commas and surrounding whitespace are stripped, `n/a` (case-insensitively),
the empty string and unparseable text all give 0. -/
theorem C7_parse_int_examples :
    parse_int "1,234" = 1234
    ∧ parse_int " 1,234 " = 1234
    ∧ parse_int "n/a" = 0
    ∧ parse_int "N/A" = 0
    ∧ parse_int "" = 0
    ∧ parse_int "abc" = 0
    ∧ parse_int "-56" = -56 := by decide

/-- Claim C8: on the synthetic document with one district heading and one
captioned table holding a header row, an `Archery` row, a
`Modern Firearms` row and a totals row, the method-level pipeline yields
exactly the two method records (totals excluded, method names normalized)
and the summary pipeline yields exactly one aggregated record whose archery
fields come from the archery row and whose overall fields come from the
totals-row harvest (50) and the re-summed hunters (100 + 100) and
hunter-days (500 + 500) of the two method rows. -/
theorem C8_end_to_end :
    scrape_year 2024
      [Element.h2 "District 1",
       Element.table (some "101 - SHERMAN")
         [["Method", "Antlerless Harvest", "Antlered Harvest", "Total Harvest", "1 Point",
           "2 Point", "3 Point", "4 Point", "5+ Point", "Number Hunters", "Hunter Success",
           "Hunter Days", "Days/Kill"],
          ["Archery", "2", "8", "10", "1", "2", "3", "2", "2", "100", "10%", "500", "50"],
          ["Modern Firearms", "10", "30", "40", "5", "10", "10", "10", "5", "100", "40%", "500", "12.5"],
          ["Totals", "12", "38", "50", "6", "12", "13", "12", "7", "200", "25%", "1000", "20"]]]
      = [⟨2024, "1", "101", "SHERMAN", "Archery", "2", "8", "10", "1", "2", "3", "2", "2",
          "100", "10%", "500", "50"⟩,
         ⟨2024, "1", "101", "SHERMAN", "Modern Firearm", "10", "30", "40", "5", "10", "10",
          "10", "5", "100", "40%", "500", "12.5"⟩]
    ∧ scrape_deer_harvest
      [Element.h2 "District 1",
       Element.table (some "101 - SHERMAN")
         [["Method", "Antlerless Harvest", "Antlered Harvest", "Total Harvest", "1 Point",
           "2 Point", "3 Point", "4 Point", "5+ Point", "Number Hunters", "Hunter Success",
           "Hunter Days", "Days/Kill"],
          ["Archery", "2", "8", "10", "1", "2", "3", "2", "2", "100", "10%", "500", "50"],
          ["Modern Firearms", "10", "30", "40", "5", "10", "10", "10", "5", "100", "40%", "500", "12.5"],
          ["Totals", "12", "38", "50", "6", "12", "13", "12", "7", "200", "25%", "1000", "20"]]]
      = [⟨"1", "101", "SHERMAN", "100", "10", "10%", "50", "200", "50", "25%", "20"⟩] := by
  decide

/-- Claim C9: in method-level mode a table whose caption exists but fails the
unit pattern gets no (unit id, unit name) mapping and is dropped, even when
a heading-derived unit is in effect — the heading fallback applies only to
tables with no caption at all. -/
theorem C9_nonmatching_caption_dropped (year : Int) (st : WalkState) (cap : String)
    (rows : List (List String))
    (h : gmuParse (pyStrip cap) = none) :
    tableGmu st (some cap) = none
    ∧ tableRecords year st (Element.table (some cap) rows) = [] := by
  constructor
  · simp [tableGmu, h]
  · simp [tableRecords, tableGmu, h]

/-- Witness for C9: a captioned table whose caption is prose, in a state
with a heading-derived unit in effect, yields nothing. -/
theorem C9_nonmatching_caption_dropped_witness :
    tableGmu ⟨some "9", some "105", some "EAST"⟩ (some "Harvest summary table") = none
    ∧ tableRecords 2015 ⟨some "9", some "105", some "EAST"⟩
        (Element.table (some "Harvest summary table")
          [["Archery", "1", "2", "3", "4", "5", "6", "7", "8", "9", "10", "11", "12"]]) = [] :=
  C9_nonmatching_caption_dropped 2015 ⟨some "9", some "105", some "EAST"⟩
    "Harvest summary table"
    [["Archery", "1", "2", "3", "4", "5", "6", "7", "8", "9", "10", "11", "12"]]
    (by decide)

/-- Claim C10: in summary mode every table whose caption matches the unit
pattern produces exactly one record (the record type itself fixes all 11
schema fields); when no row reaches 13 cells, every archery, total and
derived field of that record is the empty string. -/
theorem C10_summary_record_shape (d : Option String) (c : String)
    (rows : List (List String)) (n name : String)
    (h : gmuParse (pyStrip c) = some (n, name)) :
    summaryTableRecords d (some c) rows = [parse_gmu_table_sum rows (d.getD "") n name]
    ∧ ((∀ r ∈ rows, r.length < 13) →
        parse_gmu_table_sum rows (d.getD "") n name
          = ⟨d.getD "", n, name, "", "", "", "", "", "", "", ""⟩) := by
  constructor
  · simp [summaryTableRecords, h]
  · intro hshort
    unfold parse_gmu_table_sum
    rw [foldl_processRow_short rows initAcc hshort]
    rfl

/-- Witness for C10 on a table whose only row is a one-cell spacer. -/
theorem C10_summary_record_shape_witness :
    summaryTableRecords (some "2") (some "105 - EAST OKANOGAN") [["spacer"]]
      = [parse_gmu_table_sum [["spacer"]] "2" "105" "EAST OKANOGAN"]
    ∧ parse_gmu_table_sum [["spacer"]] "2" "105" "EAST OKANOGAN"
      = ⟨"2", "105", "EAST OKANOGAN", "", "", "", "", "", "", "", ""⟩ := by
  have h := C10_summary_record_shape (some "2") "105 - EAST OKANOGAN" [["spacer"]]
    "105" "EAST OKANOGAN" (by decide)
  exact ⟨h.1, h.2 (by decide)⟩

end Hunting
